import Mathlib

/-!
Shallow embedding of the sales / package-ledger engine of the repository
(`src/app/api/sales/route.ts` and the pricing logic of
`src/app/dashboard/sales/page.tsx`).

Conventions of the embedding:
- JavaScript numbers are modelled as `ℚ` (the handlers treat them as exact
  money amounts; all comparisons and arithmetic used here are exact).
- JavaScript `null`/`undefined` string fields are `Option String`; a missing
  or null numeric field is `Option ℚ`.
- JavaScript string falsiness (`!x`) on a required string field is modelled
  as equality with the empty string.
- A JavaScript division whose result is not finite (division by zero yields
  Infinity or NaN) is modelled as `none` in `jsDiv`.
- Database rows live in plain lists inside a `DB` record; a SQL transaction
  that rolls back is modelled by returning the original `DB` unchanged.
-/

namespace SalesEngine

/-- View of an `Except` value as a sum, used to decide equality. -/
def exceptToSum {ε α : Type} : Except ε α → ε ⊕ α
  | .error e => .inl e
  | .ok a => .inr a

instance {ε α : Type} [DecidableEq ε] [DecidableEq α] : DecidableEq (Except ε α) :=
  fun a b =>
    decidable_of_iff (exceptToSum a = exceptToSum b)
      (by cases a <;> cases b <;> simp [exceptToSum])

/-- JS division `a / b`: `none` models the non-finite result produced when
`b = 0` (Infinity or NaN); otherwise the exact quotient. -/
def jsDiv (a b : ℚ) : Option ℚ :=
  if b = 0 then none else some (a / b)

/-- JS truthiness of an optional string (`undefined`, `null` and `""` are
falsy, every other string is truthy). -/
def jsTruthy : Option String → Bool
  | none => false
  | some s => !(s = "")

/-- A sale item as sent in the request body of POST/PUT `/api/sales`
(route.ts, destructured at lines 245-254 and 490-499). -/
structure SaleItemReq where
  productId : Option String
  productName : String
  quantity : ℚ
  unitPrice : ℚ
  calculatedSubtotal : Option ℚ
  discountType : Option String
  discountValue : ℚ
deriving DecidableEq

/-- Item subtotal (route.ts lines 266-268 and 503-505): the caller-supplied
`calculatedSubtotal` is used verbatim when it is neither undefined nor null,
otherwise `quantity * unitPrice`. -/
def itemSubtotal (it : SaleItemReq) : ℚ :=
  match it.calculatedSubtotal with
  | some v => v
  | none => it.quantity * it.unitPrice

/-- Item discount (route.ts lines 272-278 and 507-513): percentage is
`subtotal * value / 100`, fixed is the flat value; only applied when the
value is positive. Note that the computation does not depend on the sale
type. -/
def itemDiscountAmount (it : SaleItemReq) : ℚ :=
  if it.discountType = some "percentage" ∧ it.discountValue > 0 then
    itemSubtotal it * (it.discountValue / 100)
  else if it.discountType = some "fixed" ∧ it.discountValue > 0 then
    it.discountValue
  else 0

/-- Item total (route.ts lines 280 and 515): `subtotal - discountAmount`,
with no clamping. -/
def itemTotal (it : SaleItemReq) : ℚ :=
  itemSubtotal it - itemDiscountAmount it

/-- A persisted `sale_items` row (route.ts INSERT at lines 282-307). -/
structure StoredItem where
  sale_id : String
  product_id : Option String
  product_name : String
  quantity : ℚ
  unit_price : ℚ
  discount_type : Option String
  discount_value : ℚ
  subtotal : ℚ
  discount_amount : ℚ
  total : ℚ
deriving DecidableEq

/-- Builds the persisted row for one request item (route.ts lines 282-307
and 517-542; `discountValue || 0` is the identity on our exact numbers
except at 0, where it is also 0). -/
def mkStoredItem (saleId : String) (it : SaleItemReq) : StoredItem :=
  { sale_id := saleId
    product_id := it.productId
    product_name := it.productName
    quantity := it.quantity
    unit_price := it.unitPrice
    discount_type := it.discountType
    discount_value := it.discountValue
    subtotal := itemSubtotal it
    discount_amount := itemDiscountAmount it
    total := itemTotal it }

/-- Running sum of item subtotals (`totalSubtotal` accumulator,
route.ts lines 241/309 and 486/544). -/
def sumSubtotals (items : List SaleItemReq) : ℚ :=
  (items.map itemSubtotal).sum

/-- Running sum of item discounts (`totalDiscountAmount` accumulator,
route.ts lines 242/310 and 487/545). -/
def sumItemDiscounts (items : List SaleItemReq) : ℚ :=
  (items.map itemDiscountAmount).sum

/-- General (sale-level) discount (route.ts lines 314-319 and 549-554). -/
def generalDiscountAmount (gdt : Option String) (gdv : ℚ) (totalSubtotal : ℚ) : ℚ :=
  if gdt = some "percentage" ∧ gdv > 0 then totalSubtotal * (gdv / 100)
  else if gdt = some "fixed" ∧ gdv > 0 then gdv
  else 0

/-- The three totals persisted on the sale header, in the order
(subtotal, total_discount, total) (route.ts lines 321-329 and 556-564):
`total_discount = totalDiscountAmount + generalDiscountAmount` and
`total = totalSubtotal - totalDiscountAmount - generalDiscountAmount`,
with no clamping at 0. -/
def saleTotals (items : List SaleItemReq) (gdt : Option String) (gdv : ℚ) : ℚ × ℚ × ℚ :=
  let ts := sumSubtotals items
  let td := sumItemDiscounts items
  let gda := generalDiscountAmount gdt gdv ts
  (ts, td + gda, ts - td - gda)

/-- A persisted `sales` row (the columns touched by the handlers). -/
structure Sale where
  id : String
  client_id : String
  attendant_id : String
  observations : Option String
  status : String
  payment_method : String
  general_discount_type : Option String
  general_discount_value : ℚ
  subtotal : ℚ
  total_discount : ℚ
  total : ℚ
deriving DecidableEq

/-- A persisted `client_packages` row (route.ts INSERT at lines 342-355).
`unit_price` is an `Option` because the JS division producing it can be
non-finite (see `jsDiv`). -/
structure Package where
  id : String
  client_id : String
  service_id : String
  sale_id : String
  initial_quantity : ℚ
  consumed_quantity : ℚ
  available_quantity : ℚ
  unit_price : Option ℚ
  total_paid : ℚ
  is_active : Bool
deriving DecidableEq

/-- The relational state the sales handlers read and write. -/
structure DB where
  sales : List Sale
  sale_items : List StoredItem
  packages : List Package
deriving DecidableEq

/-- The authenticated caller as resolved by `authenticateUser`
(route.ts lines 31-57). -/
structure AuthUser where
  id : String
  is_admin : Bool
deriving DecidableEq

/-- Failure modes of the package-consume operation (spec section 4.3). -/
inductive ConsumeError where
  | notFound
  | insufficientBalance
deriving DecidableEq

/-- Modelled from the spec: the POST handler calls a SQL stored function
`consume_package(package_id, sale_id, quantity)` (route.ts line 365) whose
SQL definition is not part of the repository sources. Per the spec
(section 4.3), the operation atomically fails with NotFound if the package
does not exist or is inactive, fails with InsufficientBalance if
`quantity > availableQuantity`, and otherwise increments consumedQuantity
and decrements availableQuantity by `quantity`. This is the single-package
form of that operation. -/
def consumeOne (p : Package) (qty : ℚ) : Except ConsumeError Package :=
  if p.is_active = false then .error .notFound
  else if qty > p.available_quantity then .error .insufficientBalance
  else .ok { p with
    consumed_quantity := p.consumed_quantity + qty
    available_quantity := p.available_quantity - qty }

/-- Modelled from the spec: `consume_package` acting on the package table.
The package row is located by id; a missing or inactive row is NotFound
(ids are primary keys, so at most one row matches). -/
def consume_package (pkgs : List Package) (packageId : String) (qty : ℚ) :
    Except ConsumeError (List Package) :=
  match pkgs.find? (fun p => p.id == packageId && p.is_active) with
  | none => .error .notFound
  | some p =>
    match consumeOne p qty with
    | .error e => .error e
    | .ok p' => .ok (pkgs.map (fun q => if q.id == packageId && q.is_active then p' else q))

/-- One consume attempt with per-operation atomicity: a failed consume
leaves the package unchanged (the transaction rolls back). -/
def consumeStep (st : Package) (q : ℚ) : Package :=
  match consumeOne st q with
  | .ok st' => st'
  | .error _ => st

/-- Applies a sequence of consume quantities to one package. -/
def runConsumes (p : Package) (ops : List ℚ) : Package :=
  ops.foldl consumeStep p

/-- The ledger invariant of spec section 8: the available balance is never
negative and `initialQuantity = consumedQuantity + availableQuantity`. -/
def pkgInv (p : Package) : Prop :=
  0 ≤ p.available_quantity ∧
  p.initial_quantity = p.consumed_quantity + p.available_quantity

instance (p : Package) : Decidable (pkgInv p) := by
  unfold pkgInv; infer_instance

/-- GET `/api/sales` (route.ts lines 60-96): an admin gets every sale, a
non-admin caller gets only the sales whose `attendant_id` is their own user
id. The ORDER BY clause and the per-sale item join are presentational and
do not change which sales are returned. -/
def visibleSales (user : AuthUser) (db : DB) : List Sale :=
  if user.is_admin then db.sales
  else db.sales.filter (fun s => s.attendant_id == user.id)

/-- Request body of POST `/api/sales` (route.ts lines 169-179). -/
structure CreateSaleReq where
  clientId : String
  observations : Option String
  paymentMethod : String
  items : List SaleItemReq
  generalDiscountType : Option String
  generalDiscountValue : ℚ
  saleType : Option String
  serviceId : Option String
  packageId : Option String
deriving DecidableEq

/-- The sale final total as computed by both handlers: `totalSubtotal -
totalDiscountAmount - generalDiscountAmount` (route.ts lines 321 and 556). -/
def finalTotalOf (items : List SaleItemReq) (gdt : Option String) (gdv : ℚ) : ℚ :=
  (saleTotals items gdt gdv).2.2

/-- The `sales` row as persisted by the POST handler (INSERT at route.ts
lines 216-236 followed by the totals UPDATE at lines 324-329). -/
def mkSaleRow (attendantId newSaleId : String) (req : CreateSaleReq) : Sale :=
  { id := newSaleId
    client_id := req.clientId
    attendant_id := attendantId
    observations := req.observations
    status := "aberta"
    payment_method := req.paymentMethod
    general_discount_type := req.generalDiscountType
    general_discount_value := req.generalDiscountValue
    subtotal := (saleTotals req.items req.generalDiscountType req.generalDiscountValue).1
    total_discount := (saleTotals req.items req.generalDiscountType req.generalDiscountValue).2.1
    total := finalTotalOf req.items req.generalDiscountType req.generalDiscountValue }

/-- The database after the POST handler has inserted the sale header and
its items (before any package-specific side effect). -/
def insertSaleAndItems (db : DB) (attendantId newSaleId : String) (req : CreateSaleReq) : DB :=
  { db with
    sales := db.sales ++ [mkSaleRow attendantId newSaleId req]
    sale_items := db.sale_items ++ req.items.map (mkStoredItem newSaleId) }

/-- The `client_packages` row created on a package sale (route.ts lines
335-355): initial and available quantity are the first item quantity,
consumed starts at 0, total paid is the sale final total, unit price is
the JS division `totalPaid / totalQuantity`, and the row is active. -/
def mkPackageRow (newPkgId newSaleId : String) (req : CreateSaleReq)
    (firstItem : SaleItemReq) : Package :=
  { id := newPkgId
    client_id := req.clientId
    service_id := req.serviceId.getD ""
    sale_id := newSaleId
    initial_quantity := firstItem.quantity
    consumed_quantity := 0
    available_quantity := firstItem.quantity
    unit_price := jsDiv (finalTotalOf req.items req.generalDiscountType req.generalDiscountValue)
      firstItem.quantity
    total_paid := finalTotalOf req.items req.generalDiscountType req.generalDiscountValue
    is_active := true }

/-- POST `/api/sales` (route.ts lines 165-407). `newSaleId` and `newPkgId`
stand for the ids the database generates for the inserted rows. Returns the
updated database and the final total on success; any error inside the
transaction returns `Except.error` and the database is left as it was
(ROLLBACK, route.ts line 398). -/
def createSale (db : DB) (attendantId : String) (newSaleId newPkgId : String)
    (req : CreateSaleReq) : Except String (DB × ℚ) :=
  if req.clientId = "" then .error "Cliente e obrigatorio"
  else if req.paymentMethod = "" then .error "Metodo de pagamento e obrigatorio"
  else match req.items with
  | [] => .error "A venda deve ter pelo menos um item"
  | firstItem :: _ =>
    if req.saleType = some "03" ∧ jsTruthy req.packageId = false then
      .error "Package ID obrigatorio para consumo de pacote"
    else if req.saleType = some "02" ∧ jsTruthy req.serviceId = true then
      .ok ({ insertSaleAndItems db attendantId newSaleId req with
              packages := db.packages ++ [mkPackageRow newPkgId newSaleId req firstItem] },
           finalTotalOf req.items req.generalDiscountType req.generalDiscountValue)
    else if req.saleType = some "03" ∧ jsTruthy req.packageId = true then
      match consume_package db.packages (req.packageId.getD "") firstItem.quantity with
      | .error _ => .error "Erro ao consumir pacote"
      | .ok pkgs' =>
        .ok ({ insertSaleAndItems db attendantId newSaleId req with packages := pkgs' },
             finalTotalOf req.items req.generalDiscountType req.generalDiscountValue)
    else
      .ok (insertSaleAndItems db attendantId newSaleId req,
           finalTotalOf req.items req.generalDiscountType req.generalDiscountValue)

/-- Request body of PUT `/api/sales` (route.ts lines 414-422). -/
structure UpdateSaleReq where
  id : String
  clientId : String
  observations : Option String
  paymentMethod : String
  items : List SaleItemReq
  generalDiscountType : Option String
  generalDiscountValue : ℚ
deriving DecidableEq

/-- Observable outcome of PUT `/api/sales`, tagged with the HTTP status the
handler sends (route.ts lines 424-459 and 566-574). -/
inductive PutResult where
  | badRequest (msg : String)
  | notFound
  | forbidden
  | ok (total : ℚ)
deriving DecidableEq

/-- The updated `sales` row written by the PUT handler (UPDATE at route.ts
lines 465-481 followed by the totals UPDATE at lines 559-564). -/
def mkUpdatedSale (sale : Sale) (req : UpdateSaleReq) : Sale :=
  { sale with
    client_id := req.clientId
    observations := req.observations
    payment_method := req.paymentMethod
    general_discount_type := req.generalDiscountType
    general_discount_value := req.generalDiscountValue
    subtotal := (saleTotals req.items req.generalDiscountType req.generalDiscountValue).1
    total_discount := (saleTotals req.items req.generalDiscountType req.generalDiscountValue).2.1
    total := finalTotalOf req.items req.generalDiscountType req.generalDiscountValue }

/-- The database after a successful PUT: the sale row is updated in place,
all of its items are deleted (route.ts line 484) and the request items are
reinserted (lines 490-546). The packages table is not touched. -/
def applyUpdate (db : DB) (req : UpdateSaleReq) (sale : Sale) : DB :=
  { db with
    sales := db.sales.map (fun s => if s.id == req.id then mkUpdatedSale sale req else s)
    sale_items :=
      db.sale_items.filter (fun it => !(it.sale_id == req.id)) ++
        req.items.map (mkStoredItem req.id) }

/-- PUT `/api/sales` (route.ts lines 410-585): requires an id, looks the
sale up (404 when absent), rejects sales that are not open (400), rejects
callers that are neither the owning attendant nor an admin (403), and
otherwise updates the header, deletes and reinserts all items, and stores
the recomputed totals. Every failure path returns the database unchanged. -/
def updateSale (db : DB) (user : AuthUser) (req : UpdateSaleReq) : PutResult × DB :=
  if req.id = "" then (.badRequest "ID da venda e obrigatorio", db)
  else match db.sales.find? (fun s => s.id == req.id) with
  | none => (.notFound, db)
  | some sale =>
    if sale.status ≠ "aberta" then
      (.badRequest "Apenas vendas abertas podem ser editadas", db)
    else if user.is_admin = false ∧ sale.attendant_id ≠ user.id then
      (.forbidden, db)
    else
      (.ok (finalTotalOf req.items req.generalDiscountType req.generalDiscountValue),
       applyUpdate db req sale)

/-- A service price tier as held by the sales page
(page.tsx `priceRanges`). -/
structure PriceRange where
  saleType : String
  minQuantity : ℚ
  maxQuantity : Option ℚ
  unitPrice : ℚ
deriving DecidableEq

/-- JS `x || d` on an optional number: `undefined` and 0 both fall back to
the default (0 is falsy in JS). -/
def jsOrQ (v : Option ℚ) (d : ℚ) : ℚ :=
  match v with
  | none => d
  | some x => if x = 0 then d else x

/-- Inserts a range into a list sorted by ascending `minQuantity`, after
any range with the same key. -/
def insertByMin (r : PriceRange) : List PriceRange → List PriceRange
  | [] => [r]
  | x :: xs =>
    if r.minQuantity < x.minQuantity then r :: x :: xs else x :: insertByMin r xs

/-- Stable ascending sort by `minQuantity`, modelling the JS
`sort((a, b) => a.minQuantity - b.minQuantity)`. -/
def sortByMin (l : List PriceRange) : List PriceRange :=
  l.foldl (fun acc r => insertByMin r acc) []

/-- JS `String.prototype.toLowerCase`, modelled per character (the code
points compared here are ASCII, where this agrees with JS). -/
def jsToLowerCase (s : String) : String :=
  ⟨s.data.map Char.toLower⟩

/-- Substring test, modelling JS `String.prototype.includes`. -/
def strContains (s pat : String) : Bool :=
  s.data.tails.any (fun t => pat.data.isPrefixOf t)

/-- `calculateProgressivePrice` (page.tsx lines 325-369): ranges matching
the sale type (falling back to type "01") are sorted by minQuantity; when
there are none the price is 0. A service whose lowercased name contains
"reclamacao" is priced progressively with a hardcoded bracket boundary of
10: up to 10 units cost `qty` times the first range price, above that the
first 10 units cost the first range price and the remainder the second
range price (each price defaulting to 40 resp. 15 when the range is absent
or its price is 0, via JS `||`). Any other service pays `qty` times the
price of the single range containing `qty`, or 0 when none does. -/
def calculateProgressivePrice (saleType : String) (qty : ℚ) (serviceName : String)
    (ranges : List PriceRange) : ℚ :=
  let filtered := sortByMin (ranges.filter (fun r => r.saleType == saleType))
  let applicableRanges :=
    if filtered.isEmpty then sortByMin (ranges.filter (fun r => r.saleType == "01"))
    else filtered
  if applicableRanges.isEmpty then 0
  else if strContains (jsToLowerCase serviceName) "reclamacao" then
    if qty ≤ 10 then
      qty * jsOrQ (applicableRanges.head?.map PriceRange.unitPrice) 40
    else
      (qty - 10) * jsOrQ (applicableRanges[1]?.map PriceRange.unitPrice) 15 +
        10 * jsOrQ (applicableRanges.head?.map PriceRange.unitPrice) 40
  else
    match applicableRanges.find? (fun r =>
        decide (qty ≥ r.minQuantity) &&
          (match r.maxQuantity with
           | none => true
           | some m => decide (qty ≤ m))) with
    | some r => qty * r.unitPrice
    | none => 0

/-- The single sale item the client form sends in its POST payload
(page.tsx lines 509-529): for sale type "03" the discount fields are
overridden to percentage 0, otherwise the form values are sent. -/
def clientPayloadItem (saleType : String) (discountType : String) (discountValue : ℚ)
    (quantity unitPrice calculatedSubtotal : ℚ) (productName : String) : SaleItemReq :=
  { productId := none
    productName := productName
    quantity := quantity
    unitPrice := unitPrice
    calculatedSubtotal := some calculatedSubtotal
    discountType := some (if saleType = "03" then "percentage" else discountType)
    discountValue := if saleType = "03" then 0 else discountValue }

/-- Success projection of an `Except` result. -/
def okPart {ε α : Type} : Except ε α → Option α
  | .ok a => some a
  | .error _ => none

/-! Concrete inputs used by witnesses and counterexamples. -/

/-- A package with 10 credits, 3 consumed (spec section 8 scenario). -/
def exPkg : Package :=
  { id := "pkg1", client_id := "c1", service_id := "sv1", sale_id := "s0"
    initial_quantity := 10, consumed_quantity := 3, available_quantity := 7
    unit_price := some 50, total_paid := 500, is_active := true }

/-- An item whose fixed discount exceeds its subtotal. -/
def exFixedItem : SaleItemReq :=
  { productId := none, productName := "Atraso", quantity := 1, unitPrice := 10
    calculatedSubtotal := none, discountType := some "fixed", discountValue := 20 }

/-- A create request whose only item is over-discounted. -/
def exReqOverDiscount : CreateSaleReq :=
  { clientId := "c1", observations := none, paymentMethod := "pix"
    items := [exFixedItem], generalDiscountType := none, generalDiscountValue := 0
    saleType := some "01", serviceId := none, packageId := none }

/-- A package-consumption item carrying caller-supplied discount fields. -/
def exDiscountedConsumption : SaleItemReq :=
  { productId := none, productName := "Consumo", quantity := 1, unitPrice := 100
    calculatedSubtotal := some 100, discountType := some "fixed", discountValue := 5 }

/-- A type-03 create request whose item carries a discount. -/
def exReqConsumeDisc : CreateSaleReq :=
  { clientId := "c1", observations := none, paymentMethod := "pix"
    items := [exDiscountedConsumption], generalDiscountType := none
    generalDiscountValue := 0, saleType := some "03", serviceId := some "sv1"
    packageId := some "pkg1" }

/-- A package-sale item with a negative quantity. -/
def exNegQtyItem : SaleItemReq :=
  { productId := none, productName := "Pacote", quantity := -1, unitPrice := 50
    calculatedSubtotal := some 500, discountType := none, discountValue := 0 }

/-- A type-02 create request whose first item quantity is negative. -/
def exReqNegPkg : CreateSaleReq :=
  { clientId := "c1", observations := none, paymentMethod := "pix"
    items := [exNegQtyItem], generalDiscountType := none, generalDiscountValue := 0
    saleType := some "02", serviceId := some "sv1", packageId := none }

/-- A package-sale item: 10 credits priced 50 each. -/
def exPkgSaleItem : SaleItemReq :=
  { productId := none, productName := "Pacote", quantity := 10, unitPrice := 50
    calculatedSubtotal := some 500, discountType := none, discountValue := 0 }

/-- An ordinary type-02 create request with positive quantity. -/
def exReqPkgSale : CreateSaleReq :=
  { clientId := "c1", observations := none, paymentMethod := "pix"
    items := [exPkgSaleItem]
    generalDiscountType := none, generalDiscountValue := 0
    saleType := some "02", serviceId := some "sv1", packageId := none }

/-- An open sale owned by attendant u1. -/
def exOpenSale : Sale :=
  { id := "s1", client_id := "c1", attendant_id := "u1", observations := none
    status := "aberta", payment_method := "pix", general_discount_type := none
    general_discount_value := 0, subtotal := 0, total_discount := 0, total := 0 }

/-- A database with one open sale and one package. -/
def exDB1 : DB := { sales := [exOpenSale], sale_items := [], packages := [exPkg] }

/-- An update request against sale s1 with one plain item. -/
def exUpdReq : UpdateSaleReq :=
  { id := "s1", clientId := "c1", observations := none, paymentMethod := "pix"
    items := [{ productId := none, productName := "Atraso", quantity := 2
                unitPrice := 30, calculatedSubtotal := none
                discountType := none, discountValue := 0 }]
    generalDiscountType := none, generalDiscountValue := 0 }

/-- The price tiers of the spec section 8 scenario: quantities 1 to 10 at
40, 11 and above at 15, for sale type "01". -/
def exRanges : List PriceRange :=
  [{ saleType := "01", minQuantity := 1, maxQuantity := some 10, unitPrice := 40 },
   { saleType := "01", minQuantity := 11, maxQuantity := none, unitPrice := 15 }]

/-- A sale belonging to attendant u1 and one belonging to attendant u2. -/
def exSaleU1 : Sale := { exOpenSale with id := "sA", attendant_id := "u1" }

def exSaleU2 : Sale := { exOpenSale with id := "sB", attendant_id := "u2" }

/-! Helper lemmas shared by the claim theorems. -/

theorem pkgInv_consumeStep (st : Package) (q : ℚ) (h : pkgInv st) :
    pkgInv (consumeStep st q) := by
  obtain ⟨h1, h2⟩ := h
  unfold consumeStep consumeOne
  split_ifs with ha hq
  · exact ⟨h1, h2⟩
  · exact ⟨h1, h2⟩
  · constructor
    · show 0 ≤ st.available_quantity - q
      linarith [not_lt.mp hq]
    · show st.initial_quantity = st.consumed_quantity + q + (st.available_quantity - q)
      linarith

theorem runConsumes_inv (ops : List ℚ) :
    ∀ p : Package, pkgInv p → pkgInv (runConsumes p ops) := by
  induction ops with
  | nil => intro p hp; exact hp
  | cons q rest ih =>
    intro p hp
    simp only [runConsumes, List.foldl_cons]
    exact ih _ (pkgInv_consumeStep p q hp)

theorem map_mkStoredItem_subtotal (s : String) (l : List SaleItemReq) :
    (l.map (mkStoredItem s)).map StoredItem.subtotal = l.map itemSubtotal := by
  simp only [List.map_map]
  rfl

theorem map_mkStoredItem_discount (s : String) (l : List SaleItemReq) :
    (l.map (mkStoredItem s)).map StoredItem.discount_amount = l.map itemDiscountAmount := by
  simp only [List.map_map]
  rfl

theorem createSale_ok_shape (db : DB) (a s p : String) (req : CreateSaleReq)
    (db' : DB) (t : ℚ) (h : createSale db a s p req = .ok (db', t)) :
    db'.sales = db.sales ++ [mkSaleRow a s req] ∧
    db'.sale_items = db.sale_items ++ req.items.map (mkStoredItem s) ∧
    t = finalTotalOf req.items req.generalDiscountType req.generalDiscountValue := by
  unfold createSale at h
  split_ifs at h <;> (try split at h) <;> (try split at h) <;>
    first
    | exact Except.noConfusion h
    | (simp only [Except.ok.injEq, Prod.mk.injEq] at h
       obtain ⟨h1, h2⟩ := h
       subst h1; subst h2
       exact ⟨rfl, rfl, rfl⟩)

theorem updateSale_ok_shape (db : DB) (u : AuthUser) (req : UpdateSaleReq)
    (t : ℚ) (db' : DB) (h : updateSale db u req = (.ok t, db')) :
    t = finalTotalOf req.items req.generalDiscountType req.generalDiscountValue ∧
    ∃ sale, db.sales.find? (fun s => s.id == req.id) = some sale ∧
      sale.status = "aberta" ∧ db' = applyUpdate db req sale := by
  unfold updateSale at h
  split_ifs at h
  · simp only [Prod.mk.injEq] at h
    exact absurd h.1 (by simp)
  · revert h
    split
    · intro h
      simp only [Prod.mk.injEq] at h
      exact absurd h.1 (by simp)
    · intro h
      split_ifs at h with h1 h2
      · simp only [Prod.mk.injEq] at h
        exact absurd h.1 (by simp)
      · simp only [Prod.mk.injEq] at h
        exact absurd h.1 (by simp)
      · simp only [Prod.mk.injEq, PutResult.ok.injEq] at h
        obtain ⟨ht, hdb⟩ := h
        exact ⟨ht.symm, _, by assumption, not_not.mp h1, hdb.symm⟩

/-! Claim theorems. -/

/-- C1: for every sequence of consume operations against a package that
satisfies the balance invariant, availableQuantity never goes negative and
initialQuantity = consumedQuantity + availableQuantity holds after every
operation (every intermediate state is `runConsumes` over a prefix, and the
first conjunct covers all sequences, prefixes included); a consume whose
quantity exceeds availableQuantity fails with InsufficientBalance and
leaves the package state unchanged. -/
theorem consume_preserves_balance (p : Package) (hp : pkgInv p) :
    (∀ ops : List ℚ, pkgInv (runConsumes p ops)) ∧
    (∀ q : ℚ, p.is_active = true → q > p.available_quantity →
      consumeOne p q = .error .insufficientBalance ∧ runConsumes p [q] = p) := by
  constructor
  · intro ops
    exact runConsumes_inv ops p hp
  · intro q ha hq
    have hc : consumeOne p q = .error .insufficientBalance := by
      unfold consumeOne
      rw [if_neg (by simp [ha]), if_pos hq]
    refine ⟨hc, ?_⟩
    show consumeStep p q = p
    unfold consumeStep
    rw [hc]

/-- C1 witness: the spec section 8 scenario package (10 credits, 3
consumed, 7 available) keeps the invariant over consumes of 2 and 4, and a
consume of 8 fails with InsufficientBalance leaving the package as it
was. -/
theorem consume_preserves_balance_witness :
    pkgInv (runConsumes exPkg [2, 4]) ∧
    consumeOne exPkg 8 = .error .insufficientBalance ∧
    runConsumes exPkg [8] = exPkg := by
  have h := consume_preserves_balance exPkg (by constructor <;> norm_num [exPkg, pkgInv])
  exact ⟨h.1 [2, 4], (h.2 8 rfl (by norm_num [exPkg])).1, (h.2 8 rfl (by norm_num [exPkg])).2⟩

/-- C2 counterexample: a create-sale request with one item of subtotal 10
and a fixed discount of 20 is accepted, the item total is -10 rather than
the capped max(0, 10 - 20) = 0, and the persisted sale total is -10, which
is negative, so the stored total is not clamped at 0. -/
theorem negative_total_cex :
    createSale ⟨[], [], []⟩ "u1" "s1" "p1" exReqOverDiscount =
      .ok (insertSaleAndItems ⟨[], [], []⟩ "u1" "s1" exReqOverDiscount, -10) ∧
    (mkSaleRow "u1" "s1" exReqOverDiscount).total = -10 ∧
    itemTotal exFixedItem = -10 ∧
    max 0 (itemSubtotal exFixedItem - exFixedItem.discountValue) = 0 := by
  refine ⟨?_, ?_, ?_, ?_⟩
  · simp [createSale, exReqOverDiscount, jsTruthy, finalTotalOf, saleTotals,
      sumSubtotals, sumItemDiscounts, generalDiscountAmount, itemSubtotal,
      itemDiscountAmount, exFixedItem]
    norm_num
  · simp [mkSaleRow, exReqOverDiscount, finalTotalOf, saleTotals, sumSubtotals,
      sumItemDiscounts, generalDiscountAmount, itemSubtotal, itemDiscountAmount,
      exFixedItem]
    norm_num
  · simp [itemTotal, itemDiscountAmount, itemSubtotal, exFixedItem]
    norm_num
  · simp [itemSubtotal, exFixedItem]
    norm_num

/-- C2 (amended): the server applies a fixed discount flat with no cap,
so the item total is subtotal minus discountValue, and both handlers store
`total = subtotal - itemDiscounts - generalDiscount` with no clamping at 0;
the stored total can therefore be negative. -/
theorem totals_not_clamped :
    (∀ it : SaleItemReq, it.discountType = some "fixed" → 0 < it.discountValue →
      itemTotal it = itemSubtotal it - it.discountValue) ∧
    (∀ (db : DB) (a s p : String) (req : CreateSaleReq) (db' : DB) (t : ℚ),
      createSale db a s p req = .ok (db', t) →
      t = sumSubtotals req.items - sumItemDiscounts req.items -
        generalDiscountAmount req.generalDiscountType req.generalDiscountValue
          (sumSubtotals req.items)) ∧
    (∀ (db : DB) (u : AuthUser) (req : UpdateSaleReq) (t : ℚ) (db' : DB),
      updateSale db u req = (.ok t, db') →
      t = sumSubtotals req.items - sumItemDiscounts req.items -
        generalDiscountAmount req.generalDiscountType req.generalDiscountValue
          (sumSubtotals req.items)) := by
  refine ⟨?_, ?_, ?_⟩
  · intro it hft hv
    unfold itemTotal itemDiscountAmount
    rw [if_neg (by simp [hft]), if_pos ⟨hft, hv⟩]
  · intro db a s p req db' t h
    exact (createSale_ok_shape db a s p req db' t h).2.2
  · intro db u req t db' h
    exact (updateSale_ok_shape db u req t db' h).1

/-- C2 witness: the over-discounted request is accepted and its stored
total is the uncapped subtotal minus discounts, namely -10. -/
theorem totals_not_clamped_witness :
    itemTotal exFixedItem = itemSubtotal exFixedItem - exFixedItem.discountValue ∧
    (-10 : ℚ) = sumSubtotals exReqOverDiscount.items -
      sumItemDiscounts exReqOverDiscount.items -
      generalDiscountAmount exReqOverDiscount.generalDiscountType
        exReqOverDiscount.generalDiscountValue (sumSubtotals exReqOverDiscount.items) := by
  constructor
  · exact totals_not_clamped.1 exFixedItem rfl (by norm_num [exFixedItem])
  · exact totals_not_clamped.2.1 ⟨[], [], []⟩ "u1" "s1" "p1" exReqOverDiscount
      (insertSaleAndItems ⟨[], [], []⟩ "u1" "s1" exReqOverDiscount) (-10)
      (by simp [createSale, exReqOverDiscount, jsTruthy, finalTotalOf, saleTotals,
            sumSubtotals, sumItemDiscounts, generalDiscountAmount, itemSubtotal,
            itemDiscountAmount, exFixedItem]
          norm_num)

/-- C3: for every sale persisted by create or update, the stored totals
reconcile: the sale subtotal is the sum of the persisted item subtotals,
total_discount is the sum of the persisted item discount amounts plus the
general discount amount, and total is subtotal minus total_discount. -/
theorem totals_reconcile :
    (∀ (db : DB) (a s p : String) (req : CreateSaleReq) (db' : DB) (t : ℚ),
      createSale db a s p req = .ok (db', t) →
      ∃ sal : Sale, db'.sales = db.sales ++ [sal] ∧
        db'.sale_items = db.sale_items ++ req.items.map (mkStoredItem s) ∧
        sal.subtotal = ((req.items.map (mkStoredItem s)).map StoredItem.subtotal).sum ∧
        sal.total_discount =
          ((req.items.map (mkStoredItem s)).map StoredItem.discount_amount).sum +
            generalDiscountAmount req.generalDiscountType req.generalDiscountValue
              sal.subtotal ∧
        sal.total = sal.subtotal - sal.total_discount ∧ t = sal.total) ∧
    (∀ (db : DB) (u : AuthUser) (req : UpdateSaleReq) (t : ℚ) (db' : DB),
      updateSale db u req = (.ok t, db') →
      ∃ sal : Sale, sal ∈ db'.sales ∧
        db'.sale_items.filter (fun it => it.sale_id == req.id) =
          req.items.map (mkStoredItem req.id) ∧
        sal.subtotal = ((req.items.map (mkStoredItem req.id)).map StoredItem.subtotal).sum ∧
        sal.total_discount =
          ((req.items.map (mkStoredItem req.id)).map StoredItem.discount_amount).sum +
            generalDiscountAmount req.generalDiscountType req.generalDiscountValue
              sal.subtotal ∧
        sal.total = sal.subtotal - sal.total_discount ∧ t = sal.total) := by
  constructor
  · intro db a s p req db' t h
    obtain ⟨h1, h2, h3⟩ := createSale_ok_shape db a s p req db' t h
    refine ⟨mkSaleRow a s req, h1, h2, ?_, ?_, ?_, ?_⟩
    · rw [map_mkStoredItem_subtotal]
      rfl
    · rw [map_mkStoredItem_discount]
      rfl
    · show finalTotalOf req.items req.generalDiscountType req.generalDiscountValue =
        sumSubtotals req.items -
          (sumItemDiscounts req.items +
            generalDiscountAmount req.generalDiscountType req.generalDiscountValue
              (sumSubtotals req.items))
      unfold finalTotalOf saleTotals
      ring
    · exact h3
  · intro db u req t db' h
    obtain ⟨ht, sale, hfind, hopen, hdb⟩ := updateSale_ok_shape db u req t db' h
    have hmem : sale ∈ db.sales := List.mem_of_find?_eq_some hfind
    have hid : (sale.id == req.id) = true := by
      have hp := List.find?_some hfind
      simpa using hp
    refine ⟨mkUpdatedSale sale req, ?_, ?_, ?_, ?_, ?_, ?_⟩
    · rw [hdb]
      show mkUpdatedSale sale req ∈
        db.sales.map (fun s => if s.id == req.id then mkUpdatedSale sale req else s)
      exact List.mem_map.mpr ⟨sale, hmem, by rw [hid]; rfl⟩
    · rw [hdb]
      show (db.sale_items.filter (fun it => !(it.sale_id == req.id)) ++
          req.items.map (mkStoredItem req.id)).filter (fun it => it.sale_id == req.id) =
        req.items.map (mkStoredItem req.id)
      rw [List.filter_append]
      have hleft : (db.sale_items.filter (fun it => !(it.sale_id == req.id))).filter
          (fun it => it.sale_id == req.id) = [] := by
        rw [List.filter_filter]
        apply List.filter_eq_nil_iff.mpr
        intro it _
        simp only [Bool.and_eq_true, Bool.not_eq_true']
        intro hc
        exact absurd hc.2 (by rw [hc.1]; simp)
      have hright : (req.items.map (mkStoredItem req.id)).filter
          (fun it => it.sale_id == req.id) = req.items.map (mkStoredItem req.id) := by
        apply List.filter_eq_self.mpr
        intro it hit
        obtain ⟨x, _, hx⟩ := List.mem_map.mp hit
        rw [← hx]
        simp [mkStoredItem]
      rw [hleft, hright, List.nil_append]
    · rw [map_mkStoredItem_subtotal]
      rfl
    · rw [map_mkStoredItem_discount]
      rfl
    · show finalTotalOf req.items req.generalDiscountType req.generalDiscountValue =
        sumSubtotals req.items -
          (sumItemDiscounts req.items +
            generalDiscountAmount req.generalDiscountType req.generalDiscountValue
              (sumSubtotals req.items))
      unfold finalTotalOf saleTotals
      ring
    · exact ht

/-- C3 witness: on the concrete over-discounted create request, the
persisted sale row reconciles: total = subtotal - total_discount. -/
theorem totals_reconcile_witness :
    (mkSaleRow "u1" "s1" exReqOverDiscount).total =
      (mkSaleRow "u1" "s1" exReqOverDiscount).subtotal -
        (mkSaleRow "u1" "s1" exReqOverDiscount).total_discount := by
  obtain ⟨sal, h1, h2, h3, h4, h5, h6⟩ :=
    totals_reconcile.1 ⟨[], [], []⟩ "u1" "s1" "p1" exReqOverDiscount
      (insertSaleAndItems ⟨[], [], []⟩ "u1" "s1" exReqOverDiscount) (-10)
      (by simp [createSale, exReqOverDiscount, jsTruthy, finalTotalOf, saleTotals,
            sumSubtotals, sumItemDiscounts, generalDiscountAmount, itemSubtotal,
            itemDiscountAmount, exFixedItem]
          norm_num)
  have hs : sal = mkSaleRow "u1" "s1" exReqOverDiscount := by
    have : ([] : List Sale) ++ [mkSaleRow "u1" "s1" exReqOverDiscount] =
        [] ++ [sal] := h1
    simpa using this.symm
  rw [← hs]
  exact h5

/-- C4 counterexample: a create request with saleType "03" whose item
carries discountType fixed and discountValue 5 is accepted, and the server
persists discount_amount = 5 and item total = 95 on a subtotal of 100 —
the discount computation ignores the sale type, so the suppression is not
enforced server-side. -/
theorem consumption_discount_cex :
    exReqConsumeDisc.saleType = some "03" ∧
    (mkStoredItem "s1" exDiscountedConsumption).discount_amount = 5 ∧
    (mkStoredItem "s1" exDiscountedConsumption).total = 95 ∧
    (mkStoredItem "s1" exDiscountedConsumption).subtotal = 100 ∧
    ∃ db' : DB,
      createSale ⟨[], [], [exPkg]⟩ "u1" "s1" "p1" exReqConsumeDisc = .ok (db', 95) ∧
      db'.sale_items = [mkStoredItem "s1" exDiscountedConsumption] := by
  refine ⟨rfl, ?_, ?_, rfl, ?_⟩
  · simp [mkStoredItem, itemDiscountAmount, itemSubtotal, exDiscountedConsumption]
  · simp [mkStoredItem, itemTotal, itemDiscountAmount, itemSubtotal,
      exDiscountedConsumption]
    norm_num
  · refine ⟨{ sales := [mkSaleRow "u1" "s1" exReqConsumeDisc]
              sale_items := [mkStoredItem "s1" exDiscountedConsumption]
              packages := [{ exPkg with consumed_quantity := 4, available_quantity := 6 }] },
            ?_, ?_⟩
    · simp [createSale, exReqConsumeDisc, jsTruthy, consume_package, consumeOne,
        List.find?, exPkg, insertSaleAndItems, mkSaleRow, mkStoredItem, finalTotalOf,
        saleTotals, sumSubtotals, sumItemDiscounts, generalDiscountAmount,
        itemSubtotal, itemDiscountAmount, itemTotal, exDiscountedConsumption]
      norm_num
    · rfl

/-- C4 (amended): the no-discount rule for package-consumption sales is
applied by the client form, not the server: the payload built by
handleSubmit for saleType "03" always carries discountValue 0 (and
discountType percentage), so the server computes discountAmount 0 and item
total = subtotal for such client-built requests; the server itself applies
whatever discount fields the caller supplies, regardless of saleType. -/
theorem consumption_discount_client_side (dt pn : String) (dv q up cs : ℚ) :
    (clientPayloadItem "03" dt dv q up cs pn).discountValue = 0 ∧
    itemDiscountAmount (clientPayloadItem "03" dt dv q up cs pn) = 0 ∧
    itemTotal (clientPayloadItem "03" dt dv q up cs pn) =
      itemSubtotal (clientPayloadItem "03" dt dv q up cs pn) := by
  refine ⟨by simp [clientPayloadItem], ?_, ?_⟩
  · simp [clientPayloadItem, itemDiscountAmount]
  · simp [itemTotal, clientPayloadItem, itemDiscountAmount]

/-- C5 counterexample: a package-sale create request whose first item has
quantity -1 (so initialQuantity = -1 ≤ 0) does not fail at all: the handler
performs no check on the quantity and succeeds, persisting a package with
initial_quantity -1 — there is no DivideByZero-kind failure for
initialQuantity ≤ 0. -/
theorem package_sale_negative_qty_cex :
    ∃ db' : DB,
      createSale ⟨[], [], []⟩ "u1" "s1" "p1" exReqNegPkg = .ok (db', 500) ∧
      db'.packages.map Package.initial_quantity = [-1] := by
  refine ⟨{ sales := [mkSaleRow "u1" "s1" exReqNegPkg]
            sale_items := [mkStoredItem "s1" exNegQtyItem]
            packages := [mkPackageRow "p1" "s1" exReqNegPkg exNegQtyItem] }, ?_, ?_⟩
  · simp [createSale, exReqNegPkg, jsTruthy, insertSaleAndItems, finalTotalOf,
      saleTotals, sumSubtotals, sumItemDiscounts, generalDiscountAmount,
      itemSubtotal, itemDiscountAmount, exNegQtyItem]
  · simp [mkPackageRow, exReqNegPkg, exNegQtyItem]

/-- C5 (amended): a package-sale create request (saleType "02" with a
truthy serviceId) that passes the input validations creates exactly one
package whose initialQuantity and availableQuantity are the first item
quantity, consumedQuantity is 0, totalPaid is the sale final total,
isActive is true, and unitPrice is the JS division totalPaid /
initialQuantity (non-finite when initialQuantity is 0); the handler
performs no check on initialQuantity and does not fail when it is zero or
negative. -/
theorem package_sale_creates_package (db : DB) (a s p : String) (req : CreateSaleReq)
    (firstItem : SaleItemReq) (rest : List SaleItemReq)
    (hc : ¬req.clientId = "") (hm : ¬req.paymentMethod = "")
    (hi : req.items = firstItem :: rest)
    (ht : req.saleType = some "02") (hs : jsTruthy req.serviceId = true) :
    createSale db a s p req =
      .ok ({ insertSaleAndItems db a s req with
              packages := db.packages ++ [mkPackageRow p s req firstItem] },
           finalTotalOf req.items req.generalDiscountType req.generalDiscountValue) ∧
    (mkPackageRow p s req firstItem).initial_quantity = firstItem.quantity ∧
    (mkPackageRow p s req firstItem).consumed_quantity = 0 ∧
    (mkPackageRow p s req firstItem).available_quantity = firstItem.quantity ∧
    (mkPackageRow p s req firstItem).is_active = true ∧
    (mkPackageRow p s req firstItem).total_paid =
      finalTotalOf req.items req.generalDiscountType req.generalDiscountValue ∧
    (mkPackageRow p s req firstItem).unit_price =
      jsDiv (finalTotalOf req.items req.generalDiscountType req.generalDiscountValue)
        firstItem.quantity := by
  refine ⟨?_, rfl, rfl, rfl, rfl, rfl, rfl⟩
  unfold createSale
  rw [hi]
  simp [hc, hm, ht, hs]

/-- C5 witness: the ordinary package-sale request (10 credits, total 500)
creates one active package with initial 10, consumed 0, available 10,
total paid 500. -/
theorem package_sale_creates_package_witness :
    createSale ⟨[], [], []⟩ "u1" "s1" "p1" exReqPkgSale =
      .ok ({ insertSaleAndItems ⟨[], [], []⟩ "u1" "s1" exReqPkgSale with
              packages := [] ++ [mkPackageRow "p1" "s1" exReqPkgSale exPkgSaleItem] },
           finalTotalOf exReqPkgSale.items exReqPkgSale.generalDiscountType
             exReqPkgSale.generalDiscountValue) ∧
    (mkPackageRow "p1" "s1" exReqPkgSale exPkgSaleItem).is_active = true ∧
    (mkPackageRow "p1" "s1" exReqPkgSale exPkgSaleItem).consumed_quantity = 0 := by
  have h := package_sale_creates_package ⟨[], [], []⟩ "u1" "s1" "p1" exReqPkgSale
    exPkgSaleItem [] (by simp [exReqPkgSale]) (by simp [exReqPkgSale]) rfl rfl
    (by simp [exReqPkgSale, jsTruthy])
  exact ⟨h.1, h.2.2.2.2.1, h.2.2.1⟩

/-- C6: for a request carrying a sale id, the PUT handler fails with 404
(notFound) when no sale has that id, with 400 (the only-open-sales message)
when the sale status is not open, with 403 (forbidden) when the caller is
neither the owning attendant nor an admin, and otherwise succeeds with 200
and the recomputed total; every failure check returns the database, and
hence the sale, unchanged. The checks run in this order, so a non-open
sale is reported 400 even to a caller that also lacks permission. -/
theorem update_status_checks (db : DB) (u : AuthUser) (req : UpdateSaleReq)
    (hid : ¬req.id = "") :
    (db.sales.find? (fun s => s.id == req.id) = none →
      updateSale db u req = (.notFound, db)) ∧
    (∀ sale, db.sales.find? (fun s => s.id == req.id) = some sale →
      ¬sale.status = "aberta" →
      updateSale db u req = (.badRequest "Apenas vendas abertas podem ser editadas", db)) ∧
    (∀ sale, db.sales.find? (fun s => s.id == req.id) = some sale →
      sale.status = "aberta" → u.is_admin = false → ¬sale.attendant_id = u.id →
      updateSale db u req = (.forbidden, db)) ∧
    (∀ sale, db.sales.find? (fun s => s.id == req.id) = some sale →
      sale.status = "aberta" → (u.is_admin = true ∨ sale.attendant_id = u.id) →
      updateSale db u req =
        (.ok (finalTotalOf req.items req.generalDiscountType req.generalDiscountValue),
         applyUpdate db req sale)) := by
  refine ⟨?_, ?_, ?_, ?_⟩
  · intro hnone
    unfold updateSale
    rw [if_neg hid, hnone]
  · intro sale hfind hstat
    unfold updateSale
    rw [if_neg hid, hfind]
    simp only [if_pos hstat]
  · intro sale hfind hstat hadm hatt
    simp [updateSale, hid, hfind, hstat, hadm, hatt]
  · intro sale hfind hstat hperm
    rcases hperm with h | h
    · simp [updateSale, hid, hfind, hstat, h]
    · simp [updateSale, hid, hfind, hstat, h]

/-- C6 witness: on an empty database the update is 404 with the database
unchanged, and a caller u9 who is not the owner u1 of the open sale s1 and
not an admin gets 403 with the database unchanged. -/
theorem update_status_checks_witness :
    updateSale ⟨[], [], []⟩ ⟨"u1", false⟩ exUpdReq = (.notFound, ⟨[], [], []⟩) ∧
    updateSale exDB1 ⟨"u9", false⟩ exUpdReq = (.forbidden, exDB1) := by
  constructor
  · exact (update_status_checks ⟨[], [], []⟩ ⟨"u1", false⟩ exUpdReq
      (by simp [exUpdReq])).1 rfl
  · exact (update_status_checks exDB1 ⟨"u9", false⟩ exUpdReq
      (by simp [exUpdReq])).2.2.1 exOpenSale
      (by simp [exDB1, List.find?, exOpenSale, exUpdReq]) rfl rfl
      (by simp [exOpenSale])

/-- C7: whatever the database, caller and request, the PUT handler leaves
the packages table exactly as it was — it never creates a package and never
consumes from or adjusts one — and on success the sale items are fully
replaced: the old items of the sale are deleted and the request items
reinserted, with the totals recomputed. -/
theorem update_never_touches_packages (db : DB) (u : AuthUser) (req : UpdateSaleReq) :
    (updateSale db u req).2.packages = db.packages ∧
    (∀ t : ℚ, (updateSale db u req).1 = .ok t →
      (updateSale db u req).2.sale_items =
        db.sale_items.filter (fun it => !(it.sale_id == req.id)) ++
          req.items.map (mkStoredItem req.id) ∧
      t = finalTotalOf req.items req.generalDiscountType req.generalDiscountValue) := by
  unfold updateSale
  split_ifs with h0
  · exact ⟨rfl, fun t ht => absurd ht (by simp)⟩
  · refine ?_
    split
    · exact ⟨rfl, fun t ht => absurd ht (by simp)⟩
    · split_ifs with h1 h2
      · exact ⟨rfl, fun t ht => absurd ht (by simp)⟩
      · exact ⟨rfl, fun t ht => absurd ht (by simp)⟩
      · refine ⟨rfl, fun t ht => ⟨rfl, ?_⟩⟩
        have := ht
        simp only [PutResult.ok.injEq] at this
        exact this.symm

/-- C7 witness: updating the open sale s1 in a database holding one
package leaves that package list identical and replaces the items. -/
theorem update_never_touches_packages_witness :
    (updateSale exDB1 ⟨"u1", false⟩ exUpdReq).2.packages = [exPkg] ∧
    (updateSale exDB1 ⟨"u1", false⟩ exUpdReq).2.sale_items =
      exUpdReq.items.map (mkStoredItem "s1") := by
  have h := update_never_touches_packages exDB1 ⟨"u1", false⟩ exUpdReq
  refine ⟨h.1, ?_⟩
  have hok : (updateSale exDB1 ⟨"u1", false⟩ exUpdReq).1 =
      .ok (finalTotalOf exUpdReq.items exUpdReq.generalDiscountType
        exUpdReq.generalDiscountValue) := by
    simp [updateSale, exDB1, exUpdReq, List.find?, exOpenSale]
  have h2 := (h.2 _ hok).1
  rw [h2]
  simp [exDB1, exUpdReq]

/-- C8: for a service recognised as progressive (its lowercased name
contains "reclamacao") with the tiers of the spec scenario — quantities 1
to 10 at 40, 11 and up at 15 — any quantity above 10 is priced with the
two-bracket formula: the first 10 units at the first tier rate and the
remaining units at the second tier rate. -/
theorem progressive_two_bracket (qty : ℚ) (h : 10 < qty) :
    calculateProgressivePrice "01" qty "Reclamacao" exRanges =
      10 * 40 + (qty - 10) * 15 := by
  simp only [calculateProgressivePrice]
  rw [show sortByMin (exRanges.filter (fun r => r.saleType == "01")) = exRanges by
    simp [sortByMin, insertByMin, exRanges, List.filter]]
  rw [if_neg (by simp [exRanges]), if_pos (by decide), if_neg (not_le.mpr h)]
  simp [jsOrQ, exRanges]
  ring

/-- C8 witness: quantity 15 is priced 10 times 40 plus 5 times 15 = 475. -/
theorem progressive_two_bracket_witness :
    calculateProgressivePrice "01" 15 "Reclamacao" exRanges = 475 := by
  rw [progressive_two_bracket 15 (by norm_num)]
  norm_num

/-- C9: in both create and update (which persist items through
`mkStoredItem`), when a request item carries a present, non-null
calculatedSubtotal, that caller-supplied value is used verbatim as the
item subtotal; quantity times unitPrice is used only when the field is
absent or null. -/
theorem calculated_subtotal_used_verbatim (sid : String) (it : SaleItemReq) :
    ((mkStoredItem sid it).subtotal = itemSubtotal it) ∧
    (∀ v : ℚ, it.calculatedSubtotal = some v → itemSubtotal it = v) ∧
    (it.calculatedSubtotal = none → itemSubtotal it = it.quantity * it.unitPrice) ∧
    (∀ (db : DB) (a s p : String) (req : CreateSaleReq) (db' : DB) (t : ℚ),
      createSale db a s p req = .ok (db', t) →
      db'.sale_items = db.sale_items ++ req.items.map (mkStoredItem s)) ∧
    (∀ (db : DB) (u : AuthUser) (req : UpdateSaleReq) (t : ℚ) (db' : DB),
      updateSale db u req = (.ok t, db') →
      db'.sale_items = db.sale_items.filter (fun x => !(x.sale_id == req.id)) ++
        req.items.map (mkStoredItem req.id)) := by
  refine ⟨rfl, ?_, ?_, ?_, ?_⟩
  · intro v hv
    simp [itemSubtotal, hv]
  · intro hv
    simp [itemSubtotal, hv]
  · intro db a s p req db' t h
    exact (createSale_ok_shape db a s p req db' t h).2.1
  · intro db u req t db' h
    obtain ⟨_, sale, _, _, hdb⟩ := updateSale_ok_shape db u req t db' h
    rw [hdb]
    rfl

/-- C9 witness: the item sent with calculatedSubtotal 100 gets subtotal
100 even though quantity times unitPrice is also 100 here, and the item
with no calculatedSubtotal gets quantity times unitPrice = 10. -/
theorem calculated_subtotal_used_verbatim_witness :
    itemSubtotal exDiscountedConsumption = 100 ∧
    itemSubtotal exFixedItem = 10 := by
  constructor
  · exact (calculated_subtotal_used_verbatim "s1" exDiscountedConsumption).2.1 100 rfl
  · have h := (calculated_subtotal_used_verbatim "s1" exFixedItem).2.2.1 rfl
    rw [h]
    norm_num [exFixedItem]

/-- C10: an admin caller of GET /sales receives every sale; a non-admin
caller receives exactly the sales whose attendant_id is their own user id,
and their response is unaffected by sales of other attendants: two
databases agreeing on the caller-owned sales produce the same response. -/
theorem sales_visibility (u : AuthUser) (db : DB) :
    (u.is_admin = true → visibleSales u db = db.sales) ∧
    (u.is_admin = false →
      visibleSales u db = db.sales.filter (fun s => s.attendant_id == u.id)) ∧
    (∀ db2 : DB, u.is_admin = false →
      db.sales.filter (fun s => s.attendant_id == u.id) =
        db2.sales.filter (fun s => s.attendant_id == u.id) →
      visibleSales u db = visibleSales u db2) := by
  refine ⟨?_, ?_, ?_⟩
  · intro ha
    simp [visibleSales, ha]
  · intro ha
    simp [visibleSales, ha]
  · intro db2 ha hagree
    simp [visibleSales, ha, hagree]

/-- C10 witness: non-admin u1 sees exactly their own sale out of a
database also holding a sale of attendant u2, and removing the foreign
sale does not change the response. -/
theorem sales_visibility_witness :
    visibleSales ⟨"u1", false⟩ ⟨[exSaleU1, exSaleU2], [], []⟩ = [exSaleU1] ∧
    visibleSales ⟨"u1", false⟩ ⟨[exSaleU1, exSaleU2], [], []⟩ =
      visibleSales ⟨"u1", false⟩ ⟨[exSaleU1], [], []⟩ := by
  have h := sales_visibility ⟨"u1", false⟩ ⟨[exSaleU1, exSaleU2], [], []⟩
  constructor
  · rw [h.2.1 rfl]
    simp [exSaleU1, exSaleU2, exOpenSale, List.filter]
  · exact h.2.2 ⟨[exSaleU1], [], []⟩ rfl
      (by simp [exSaleU1, exSaleU2, exOpenSale, List.filter])

end SalesEngine

